import Mathlib

/-!
# Auth middleware and route table of veff-hopverkefni1

A shallow embedding of `src/auth.js` and `src/api/index.js`.

* JavaScript values are the JSON-like type `JsVal`; truthiness, property read and
  `delete` follow the language.
* A request/response pair in flight is an `Exchange`: the request (with `req.user`), the
  response (`statusCode`, JSON body sent) and the log of calls made to `next`.
* A promise is an `Except JsVal _` (rejected with a reason, or resolved); collaborators that
  the source awaits (`users.*`, `validateUser`) are parameters of that type. `jwt.sign` is
  synchronous but throws on options it refuses, so it is a parameter of that type too, its
  throw inside the async `loginRoute` being the rejection of the promise. `validateLogin`
  and `Number` are plain function parameters.
* `passport.authenticate('jwt', opts, cb)(req, res, next)` is a parameter
  `authenticate : Request → VerifyOutcome`: the triple `(err, user, info)` the library hands
  to the callback `cb` written in the source.
* The router is the list of registered routes in registration order, walked in order.
-/

namespace Veff

/-! ## JavaScript values -/

/-- JSON-like JavaScript values. Numbers are integers or NaN. -/
inductive JsVal where
  | undefined
  | null
  | bool (b : Bool)
  | num (n : Int)
  | nan
  | str (s : String)
  | arr (items : List JsVal)
  | obj (fields : List (String × JsVal))

namespace JsVal

/-- ToBoolean: the falsy values are undefined, null, false, 0, NaN and the empty string. -/
def truthy : JsVal → Bool
  | undefined => false
  | null => false
  | bool b => b
  | num n => n != 0
  | nan => false
  | str s => s != ""
  | arr _ => true
  | obj _ => true

/-- First value stored under key `k` in a field list, `undefined` when there is none. -/
def lookup (k : String) : List (String × JsVal) → JsVal
  | [] => undefined
  | (k', v) :: rest => if k' = k then v else lookup k rest

/-- Property read `v.k` on a value that is not null or undefined. The keys read by the
source (`name`, `admin`, `password`, `id`) are own fields of objects and absent on
primitives and arrays. -/
def getProp (v : JsVal) (k : String) : JsVal :=
  match v with
  | obj fields => lookup k fields
  | _ => undefined

/-- The TypeError thrown when a property of null or undefined is touched. -/
def typeError : JsVal := obj [("name", str "TypeError")]

/-- Property read `v.k` in full: reading from null or undefined throws. -/
def member (v : JsVal) (k : String) : Except JsVal JsVal :=
  match v with
  | undefined => .error typeError
  | null => .error typeError
  | w => .ok (getProp w k)

/-- Effect of `delete v.k` on a value that is not null or undefined: the field is removed
from an object, anything else is left as it is. -/
def deleteProp (v : JsVal) (k : String) : JsVal :=
  match v with
  | obj fields => obj (fields.filter (fun p => p.1 != k))
  | w => w

/-- Statement `delete v.k` in full: deleting from null or undefined throws. -/
def deleteMember (v : JsVal) (k : String) : Except JsVal JsVal :=
  match v with
  | undefined => .error typeError
  | null => .error typeError
  | w => .ok (deleteProp w k)

/-- Whether the value carries a field named `k`. -/
def hasProp (v : JsVal) (k : String) : Bool :=
  match v with
  | obj fields => fields.any (fun p => p.1 == k)
  | _ => false

/-- Comparison `v === s` against a string literal. -/
def strictEqStr (v : JsVal) (s : String) : Bool :=
  match v with
  | str t => t == s
  | _ => false

end JsVal

open JsVal

/-! ## Configuration (`auth.js` lines 12-28) -/

/-- Module-level configuration of `auth.js`: `jwtOptions.secretOrKey` and `tokenLifetime`. -/
structure Config where
  secretOrKey : String
  tokenLifetime : JsVal

/-- Start-up of `auth.js`: with `JWT_SECRET` unset or empty the process exits (`none`);
`tokenLifetime` is `120 * 120` unless `JWT_TOKEN_LIFETIME` is a non-empty string, in which
case it is `Number(JWT_TOKEN_LIFETIME)`. -/
def loadConfig (Number : String → JsVal) (JWT_SECRET JWT_TOKEN_LIFETIME : Option String) :
    Option Config :=
  match JWT_SECRET with
  | none => none
  | some jwtSecret =>
    if jwtSecret = "" then none
    else
      let tokenLifetime : JsVal :=
        match JWT_TOKEN_LIFETIME with
        | none => num (120 * 120)
        | some s => if s = "" then num (120 * 120) else Number s
      some { secretOrKey := jwtSecret, tokenLifetime := tokenLifetime }

/-! ## Requests, responses, exchanges -/

/-- HTTP methods used by the two route files, and one that is routed nowhere. -/
inductive Method where
  | GET | POST | PATCH | DELETE | PUT
  deriving DecidableEq, Repr

/-- The parts of an Express request the code reads or writes. `path` lists the segments of
the URL path, which is a slash followed by the segments joined by slashes: `/users/me` is
`["users", "me"]`, `/categories/` is `["categories", ""]`, `/` is `[]`; no segment holds a
slash. `user` is `req.user`, `none` while it has never been assigned. -/
structure Request where
  method : Method
  path : List String
  headers : List (String × String)
  body : JsVal
  params : List (String × String)
  user : Option JsVal

/-- The response: `res.statusCode` (200 until `res.status` is called) and the JSON body sent
by `res.json`, `none` while nothing has been sent. -/
structure Response where
  statusCode : Nat
  body : Option JsVal

/-- A response nothing has written to yet. -/
def Response.fresh : Response := { statusCode := 200, body := none }

/-- A request in flight: request, response, and the arguments of every call made to `next`
so far, oldest first (`next()` is logged as `undefined`). -/
structure Exchange where
  req : Request
  res : Response
  nextCalls : List JsVal

namespace Exchange

/-- Call `next(arg)`. -/
def next (x : Exchange) (arg : JsVal) : Exchange :=
  { x with nextCalls := x.nextCalls ++ [arg] }

/-- Call `res.status(code).json(body)`. -/
def statusJson (x : Exchange) (code : Nat) (body : JsVal) : Exchange :=
  { x with res := { statusCode := code, body := some body } }

/-- Call `res.json(body)`: the status code stays what it was. -/
def json (x : Exchange) (body : JsVal) : Exchange :=
  { x with res := { statusCode := x.res.statusCode, body := some body } }

/-- Assignment `req.user = user`. -/
def setUser (x : Exchange) (user : JsVal) : Exchange :=
  { x with req := { x.req with user := some user } }

end Exchange

/-- The arguments `(err, user, info)` a verification callback is called with. An argument
that is not passed is `undefined`. -/
structure VerifyOutcome where
  err : JsVal
  user : JsVal
  info : JsVal

/-! ## `auth.js` -/

/-- Function `strat(data, next)`: the arguments handed to `next`, or the rejection of the
async function (`data.id` on null or undefined, or `users.findById` rejecting). -/
def strat (findById : JsVal → Except JsVal JsVal) (data : JsVal) : Except JsVal VerifyOutcome := do
  let id ← member data "id"
  let user ← findById id
  if user.truthy then
    pure { err := null, user := user, info := undefined }
  else
    pure { err := null, user := bool false, info := undefined }

/-- Middleware `requireAuth(req, res, next)`: the callback of the source run on the outcome
`passport.authenticate` produces for the request. -/
def requireAuth (authenticate : Request → VerifyOutcome) (x : Exchange) : Exchange :=
  let o := authenticate x.req
  if o.err.truthy then
    x.next o.err
  else if !o.user.truthy then
    let error :=
      if o.info.truthy && strictEqStr (getProp o.info "name") "TokenExpiredError"
      then str "expired token"
      else str "invalid token"
    x.statusJson 401 (obj [("error", error)])
  else
    let user := deleteProp o.user "password"
    (x.setUser user).next undefined

/-- Middleware `requireAdminAuth(req, res, next)`. -/
def requireAdminAuth (authenticate : Request → VerifyOutcome) (x : Exchange) : Exchange :=
  let o := authenticate x.req
  if o.err.truthy then
    x.next o.err
  else if !o.user.truthy then
    let error :=
      if o.info.truthy && strictEqStr (getProp o.info "name") "TokenExpiredError"
      then str "expired token"
      else str "invalid token"
    x.statusJson 401 (obj [("error", error)])
  else if !(getProp o.user "admin").truthy then
    let error := str "invalid token"
    x.statusJson 401 (obj [("error", error)])
  else
    let user := deleteProp o.user "password"
    (x.setUser user).next undefined

/-- Async handler `registerRoute(req, res)`; `.error` is the rejection of its promise. -/
def registerRoute (validateUser : JsVal → Except JsVal (List JsVal))
    (createUser : JsVal → JsVal → JsVal → Except JsVal JsVal)
    (x : Exchange) : Except JsVal Exchange := do
  let username ← member x.req.body "username"
  let password ← member x.req.body "password"
  let email ← member x.req.body "email"
  let validationMessage ← validateUser
    (obj [("username", username), ("password", password), ("email", email)])
  if validationMessage.length > 0 then
    pure (x.statusJson 400 (obj [("errors", arr validationMessage)]))
  else
    let result ← createUser username password email
    let result ← deleteMember result "password"
    pure (x.statusJson 201 result)

/-- Async handler `loginRoute(req, res)`; `.error` is the rejection of its promise. -/
def loginRoute (cfg : Config) (validateLogin : JsVal → JsVal → List JsVal)
    (findByEmail : JsVal → Except JsVal JsVal)
    (comparePasswords : JsVal → JsVal → Except JsVal JsVal)
    (sign : JsVal → String → JsVal → Except JsVal JsVal)
    (x : Exchange) : Except JsVal Exchange := do
  let email ← member x.req.body "email"
  let password ← member x.req.body "password"
  let validationMessages := validateLogin email password
  if validationMessages.length > 0 then
    pure (x.statusJson 400 (obj [("errors", arr validationMessages)]))
  else
    let user ← findByEmail email
    if !user.truthy then
      pure (x.statusJson 401 (obj [("error", str "No such user")]))
    else
      let passwordIsCorrect ← comparePasswords password (getProp user "password")
      if passwordIsCorrect.truthy then
        let payload := obj [("id", getProp user "id")]
        let tokenOptions := obj [("expiresIn", cfg.tokenLifetime)]
        let token ← sign payload cfg.secretOrKey tokenOptions
        let user := deleteProp user "password"
        pure (x.json (obj [("user", user), ("token", token), ("expiresIn", cfg.tokenLifetime)]))
      else
        pure (x.statusJson 401 (obj [("error", str "Invalid password!")]))

/-- A settled call of an async handler: the exchange as the handler left it, and the reason
when its promise rejected. -/
structure Settled where
  exchange : Exchange
  rejected : Option JsVal

/-- Wrapper `catchErrors(fn)`: `(req, res, next) => fn(req, res, next).catch(next)`. -/
def catchErrors (fn : Exchange → Settled) (x : Exchange) : Exchange :=
  let s := fn x
  match s.rejected with
  | some reason => s.exchange.next reason
  | none => s.exchange

/-! ## `api/index.js` -/

/-- Handlers imported by `api/index.js` from `./users` and `./products/products`. -/
inductive Handler where
  | usersRoute | userRoute | updateAdminRoute | meRoute | mePatchRoute
  | productsRoute | productRoute | productPatchRoute | productDeleteRoute | newProductRoute
  | categoriesRoute | categoriesPostRoute | categoryPatchRoute | categoryDeleteRoute
  deriving DecidableEq, Repr

/-- One function registered on a route: a middleware of `auth.js`, `indexRoute`, or an
imported handler wrapped in `catchErrors`. -/
inductive Layer where
  | requireAuth
  | requireAdminAuth
  | indexRoute
  | catchErrors (h : Handler)
  deriving DecidableEq, Repr

/-- One segment of a route path: a literal, or a named parameter such as `:id`. -/
inductive Seg where
  | lit (s : String)
  | param (name : String)
  deriving DecidableEq, Repr

/-- A registered route: `router.METHOD(path, ...stack)`. -/
structure Route where
  method : Method
  path : List Seg
  stack : List Layer
  deriving DecidableEq, Repr

/-- Handler `indexRoute(req, res)`: sends the document of route templates. -/
def indexRoute (x : Exchange) : Exchange :=
  x.json (obj [
    ("users", obj [
      ("users", str "/users"),
      ("user", str "/users/\x7bid\x7d"),
      ("register", str "/users/register"),
      ("login", str "/users/login"),
      ("me", str "/users/me")]),
    ("products", obj [
      ("products", str "/products"),
      ("productsFiltered", str "/products?category=\x7bcategory\x7d"),
      ("productsSearch", str "/products?search=\x7bquery\x7d"),
      ("product", str "/products/\x7bid\x7d"),
      ("categories", str "/categories"),
      ("category", str "/categories/\x7bid\x7d")]),
    ("cart", obj [
      ("cart", str "/cart"),
      ("line", str "/cart/line/\x7bid\x7d"),
      ("orders", str "/orders"),
      ("order", str "/orders/\x7bid\x7d")])])

/-- The route table of `api/index.js` (lines 56-72), in registration order. -/
def router : List Route := [
  { method := .GET, path := [], stack := [.indexRoute] },
  { method := .GET, path := [.lit "users"],
    stack := [.requireAdminAuth, .catchErrors .usersRoute] },
  { method := .GET, path := [.lit "users", .param "id"],
    stack := [.requireAdminAuth, .catchErrors .userRoute] },
  { method := .PATCH, path := [.lit "users", .param "id"],
    stack := [.requireAdminAuth, .catchErrors .updateAdminRoute] },
  { method := .GET, path := [.lit "users", .lit "me"],
    stack := [.requireAuth, .catchErrors .meRoute] },
  { method := .PATCH, path := [.lit "users", .lit "me"],
    stack := [.requireAuth, .catchErrors .mePatchRoute] },
  { method := .GET, path := [.lit "products"], stack := [.catchErrors .productsRoute] },
  { method := .POST, path := [.lit "products"],
    stack := [.requireAdminAuth, .catchErrors .newProductRoute] },
  { method := .GET, path := [.lit "products", .param "id"],
    stack := [.catchErrors .productRoute] },
  { method := .PATCH, path := [.lit "products", .param "id"],
    stack := [.requireAdminAuth, .catchErrors .productPatchRoute] },
  { method := .DELETE, path := [.lit "products", .param "id"],
    stack := [.requireAdminAuth, .catchErrors .productDeleteRoute] },
  { method := .GET, path := [.lit "categories"], stack := [.catchErrors .categoriesRoute] },
  { method := .POST, path := [.lit "categories"],
    stack := [.requireAdminAuth, .catchErrors .categoriesPostRoute] },
  { method := .PATCH, path := [.lit "categories", .param "id"],
    stack := [.requireAdminAuth, .catchErrors .categoryPatchRoute] },
  { method := .DELETE, path := [.lit "categories", .param "id"],
    stack := [.requireAdminAuth, .catchErrors .categoryDeleteRoute] }]

/-! ## Dispatch

How the Express router walks the table: routes are tried in registration order; a route
takes the request when its method is the request's and its path pattern matches the whole
path. The router is `express.Router()` with its default options, so one trailing slash of
the path is ignored, literal segments are compared without regard to the case of ASCII
letters, and a parameter segment matches any one non-empty segment. The functions of the
route run in order, each one only after the one before it called `next` with a falsy
argument; `next(err)` with a truthy `err` leaves the table for the error handler; a
function that does not call `next` ends the walk. When the last function of a route calls
`next`, the walk goes on with the routes registered after it.

Express binds parameter values percent-decoded and, when a value does not decode, leaves
the table with an error; here values are bound as they stand in the path. The walk below is
therefore that of Express on paths whose segments carry no percent escape, and the
statements about parameter routes are made for such segments (`plainSegment`). -/

/-- A string with its ASCII capital letters turned into small ones, as a list of
characters. -/
def foldCase (s : String) : List Char := s.toList.map Char.toLower

/-- A path without its one trailing slash, if it has one: an empty last segment goes. -/
def dropTrailingSlash (path : List String) : List String :=
  if path.getLast? = some "" then path.dropLast else path

/-- Match the segments of a pattern against segments one by one, binding the parameters. -/
def matchSegs : List Seg → List String → Option (List (String × String))
  | [], [] => some []
  | .lit s :: ps, t :: ts => if foldCase s = foldCase t then matchSegs ps ts else none
  | .param n :: ps, t :: ts =>
    if t = "" then none else (matchSegs ps ts).map (fun bs => (n, t) :: bs)
  | _, _ => none

/-- Match a path pattern against the segments of a request path, binding the parameters. -/
def matchPath (pattern : List Seg) (path : List String) : Option (List (String × String)) :=
  matchSegs pattern (dropTrailingSlash path)

/-- A segment that stands for itself in a URL path: not empty, and free of the slash, of the
characters that end the path (`?`, `#`) and of percent escapes. -/
def plainSegment (s : String) : Bool :=
  s != "" && s.toList.all (fun c => c != '/' && c != '?' && c != '#' && c != '%')

/-- Whether a route takes a request with this method and path. -/
def Route.accepts (r : Route) (m : Method) (path : List String) : Bool :=
  decide (r.method = m) && (matchPath r.path path).isSome

/-- First-match dispatch: the first route in registration order that takes the request. -/
def firstMatch (routes : List Route) (m : Method) (path : List String) : Option Route :=
  routes.find? (fun r => r.accepts m path)

/-- What the walk needs from outside the two source files: the outcome of
`passport.authenticate` for a request, and the imported handlers. -/
structure Env where
  authenticate : Request → VerifyOutcome
  handlers : Handler → Exchange → Settled

/-- Run one registered function. -/
def runLayer (env : Env) : Layer → Exchange → Exchange
  | .requireAuth, x => requireAuth env.authenticate x
  | .requireAdminAuth, x => requireAdminAuth env.authenticate x
  | .indexRoute, x => indexRoute x
  | .catchErrors h, x => catchErrors (env.handlers h) x

/-- How a walk left the table. -/
inductive Flow where
  | ended
  | fellThrough
  | errored (err : JsVal)

/-- Result of a walk: the exchange, the registered functions that ran (in order), and how
the walk ended. -/
structure Run where
  exchange : Exchange
  ran : List Layer
  flow : Flow

/-- Run the functions of one route in order, each with an empty log of `next` calls. -/
def runStack (env : Env) : List Layer → Exchange → Run
  | [], x => { exchange := x, ran := [], flow := .fellThrough }
  | l :: ls, x =>
    let y := runLayer env l { x with nextCalls := [] }
    match y.nextCalls with
    | [] => { exchange := y, ran := [l], flow := .ended }
    | v :: _ =>
      if v.truthy then { exchange := y, ran := [l], flow := .errored v }
      else
        let rest := runStack env ls y
        { rest with ran := l :: rest.ran }

/-- Walk a route table with a request. -/
def dispatch (env : Env) : List Route → Exchange → Run
  | [], x => { exchange := x, ran := [], flow := .fellThrough }
  | r :: rs, x =>
    if r.method = x.req.method then
      match matchPath r.path x.req.path with
      | some bindings =>
        let run := runStack env r.stack { x with req := { x.req with params := bindings } }
        match run.flow with
        | .fellThrough =>
          let rest := dispatch env rs run.exchange
          { rest with ran := run.ran ++ rest.ran }
        | _ => run
      | none => dispatch env rs x
    else dispatch env rs x

/-- The routes the interface description marks as admin only: POST, PATCH and DELETE under
`/products` or `/categories`, and GET `/users`, GET `/users/:id`, PATCH `/users/:id`. -/
def adminOnly (r : Route) : Bool :=
  ((r.method = .POST || r.method = .PATCH || r.method = .DELETE) &&
    (r.path.head? = some (.lit "products") || r.path.head? = some (.lit "categories")))
  || (r.method = .GET && r.path = [.lit "users"])
  || (r.method = .GET && r.path = [.lit "users", .param "id"])
  || (r.method = .PATCH && r.path = [.lit "users", .param "id"])

/-! ## Sample data -/

/-- A stored user without the admin flag, carrying a password hash. -/
def bob : JsVal :=
  obj [("id", num 2), ("username", str "bob"), ("email", str "b@x.com"),
       ("password", str "$2b$11$hash"), ("admin", bool false)]

/-- A stored user with the admin flag, carrying a password hash. -/
def alice : JsVal :=
  obj [("id", num 1), ("username", str "admin"), ("email", str "a@x.com"),
       ("password", str "$2b$11$hash"), ("admin", bool true)]

/-- A request for `method path` with a body, no headers at all, and `req.user` unassigned. -/
def mkRequest (m : Method) (path : List String) (body : JsVal) : Request :=
  { method := m, path := path, headers := [], body := body, params := [], user := none }

/-- An exchange at the moment the request enters the application. -/
def mkExchange (m : Method) (path : List String) (body : JsVal) : Exchange :=
  { req := mkRequest m path body, res := Response.fresh, nextCalls := [] }

/-- An expired token: verification fails with a TokenExpiredError as info. -/
def expiredOutcome : VerifyOutcome :=
  { err := null, user := bool false, info := obj [("name", str "TokenExpiredError")] }

/-- A valid token of bob: verification resolves the stored record, no info. -/
def bobOutcome : VerifyOutcome := { err := null, user := bob, info := undefined }

/-- A valid token of alice: verification resolves the stored record, no info. -/
def aliceOutcome : VerifyOutcome := { err := null, user := alice, info := undefined }

/-- An outcome whose first argument is an error object. -/
def errorOutcome : VerifyOutcome :=
  { err := obj [("name", str "Error"), ("message", str "connection refused")],
    user := undefined, info := undefined }

/-- An async handler whose promise rejects without having written anything. -/
def rejectingHandler (x : Exchange) : Settled :=
  { exchange := x, rejected := some (obj [("name", str "Error")]) }

/-- A user store holding bob only: lookup by email. -/
def findBobByEmail (email : JsVal) : Except JsVal JsVal :=
  match email with
  | str e => if e = "b@x.com" then .ok bob else .ok null
  | _ => .ok null

/-- A password check that accepts the one password "Secret123". -/
def compareWithSecret123 (password _hash : JsVal) : Except JsVal JsVal :=
  .ok (bool (strictEqStr password "Secret123"))

/-- A token that records what it was signed from. -/
def recordedToken (payload : JsVal) (secret : String) (options : JsVal) : JsVal :=
  obj [("payload", payload), ("secret", str secret), ("options", options)]

/-- A stand-in for `jwt.sign` that signs whatever it is given. -/
def recordingSign (payload : JsVal) (secret : String) (options : JsVal) : Except JsVal JsVal :=
  .ok (recordedToken payload secret options)

/-- The error of `jwt.sign` on an `expiresIn` it refuses. -/
def expiresInError : JsVal :=
  obj [("name", str "Error"),
       ("message", str "\"expiresIn\" should be a number of seconds or string representing a timespan")]

/-- A stand-in for `jwt.sign` that, as the library does, throws when the option `expiresIn`
is NaN, and signs otherwise. -/
def checkedSign (payload : JsVal) (secret : String) (options : JsVal) : Except JsVal JsVal :=
  match getProp options "expiresIn" with
  | nan => .error expiresInError
  | _ => .ok (recordedToken payload secret options)

/-- The configuration loaded from `JWT_SECRET=s3cret` and `JWT_TOKEN_LIFETIME=abc`, with
`Number("abc")` being NaN. -/
def abcConfig : Config := { secretOrKey := "s3cret", tokenLifetime := nan }

/-- A login validator that accepts everything. -/
def acceptLogin (_email _password : JsVal) : List JsVal := []

/-- A registration validator that accepts everything. -/
def acceptUser (_user : JsVal) : Except JsVal (List JsVal) := .ok []

/-- A user store that creates bob whatever it is given, returning the full stored row. -/
def createBob (_username _password _email : JsVal) : Except JsVal JsVal := .ok bob

/-- A stand-in for `Number` on the strings used below. -/
def sampleNumber (s : String) : JsVal := if s = "3600" then num 3600 else nan

/-- The configuration loaded from `JWT_SECRET=s3cret` and no lifetime override. -/
def sampleConfig : Config := { secretOrKey := "s3cret", tokenLifetime := num 14400 }

/-- Login request of bob with the right password. -/
def bobLogin : Exchange :=
  mkExchange .POST ["users", "login"]
    (obj [("email", str "b@x.com"), ("password", str "Secret123")])

/-- Login request of bob with a wrong password. -/
def bobBadLogin : Exchange :=
  mkExchange .POST ["users", "login"]
    (obj [("email", str "b@x.com"), ("password", str "guess")])

/-- Login request for an email the store does not know. -/
def strangerLogin : Exchange :=
  mkExchange .POST ["users", "login"]
    (obj [("email", str "nobody@x.com"), ("password", str "Secret123")])

/-- Registration request of bob. -/
def bobRegister : Exchange :=
  mkExchange .POST ["users", "register"]
    (obj [("username", str "bob"), ("password", str "Secret123"), ("email", str "b@x.com")])

/-- The exchange after bob registered: 201 with the created row minus its password. -/
def bobRegistered : Exchange :=
  { req := bobRegister.req,
    res := { statusCode := 201, body := some (deleteProp bob "password") },
    nextCalls := [] }

/-- The exchange after bob logged in under the sample configuration. -/
def bobLoggedIn : Exchange :=
  { req := bobLogin.req,
    res := { statusCode := 200,
             body := some (obj [
               ("user", deleteProp bob "password"),
               ("token", recordedToken (obj [("id", num 2)]) "s3cret"
                           (obj [("expiresIn", num 14400)])),
               ("expiresIn", num 14400)]) },
    nextCalls := [] }

/-- Imported handlers that all answer with an empty JSON object and resolve. -/
def okHandlers (_h : Handler) (x : Exchange) : Settled :=
  { exchange := x.json (obj []), rejected := none }

/-- The surroundings in which every token presented is a valid token of alice. -/
def aliceEnv : Env := { authenticate := fun _ => aliceOutcome, handlers := okHandlers }

/-- The surroundings in which no request carries a token: verification resolves no user. -/
def anonymousEnv : Env :=
  { authenticate := fun _ => { err := null, user := bool false, info := undefined },
    handlers := okHandlers }

/-- The route registered by `router.post('/products', requireAdminAuth, ...)`. -/
def postProducts : Route :=
  { method := .POST, path := [.lit "products"],
    stack := [.requireAdminAuth, .catchErrors .newProductRoute] }

/-! ## Lemmas on values -/

theorem strictEqStr_eq_true_iff (v : JsVal) (s : String) :
    strictEqStr v s = true ↔ v = str s := by
  cases v <;> simp [strictEqStr]

theorem truthy_of_getProp_str (v : JsVal) (k s : String) (h : getProp v k = str s) :
    v.truthy = true := by
  cases v <;> simp_all [getProp, truthy]

theorem member_of_truthy (v : JsVal) (k : String) (h : v.truthy = true) :
    member v k = .ok (getProp v k) := by
  cases v <;> simp_all [member, truthy]

theorem deleteMember_of_truthy (v : JsVal) (k : String) (h : v.truthy = true) :
    deleteMember v k = .ok (deleteProp v k) := by
  cases v <;> simp_all [deleteMember, truthy]

theorem hasProp_deleteProp (v : JsVal) (k : String) : hasProp (deleteProp v k) k = false := by
  cases v <;> simp [deleteProp, hasProp]

theorem lookup_filter_ne (k : String) (fields : List (String × JsVal)) :
    lookup k (fields.filter (fun p => p.1 != k)) = undefined := by
  induction fields with
  | nil => rfl
  | cons p rest ih =>
    obtain ⟨k', v⟩ := p
    by_cases h : k' = k
    · simp [List.filter_cons, h, ih]
    · simp [List.filter_cons, h, lookup, ih]

theorem getProp_deleteProp (v : JsVal) (k : String) :
    getProp (deleteProp v k) k = undefined := by
  cases v <;> simp [deleteProp, getProp, lookup_filter_ne]

theorem hasProp_deleteMember (v w : JsVal) (k : String) (h : deleteMember v k = .ok w) :
    hasProp w k = false := by
  cases v <;> simp [deleteMember] at h <;> subst h <;> exact hasProp_deleteProp _ _

theorem getProp_deleteMember (v w : JsVal) (k : String) (h : deleteMember v k = .ok w) :
    getProp w k = undefined := by
  cases v <;> simp [deleteMember] at h <;> subst h <;> exact getProp_deleteProp _ _

/-- The message chosen by the two middlewares when no user was resolved. -/
theorem expired_cond_iff (info : JsVal) :
    (info.truthy && strictEqStr (getProp info "name") "TokenExpiredError") = true ↔
      getProp info "name" = str "TokenExpiredError" := by
  rw [Bool.and_eq_true, strictEqStr_eq_true_iff]
  exact ⟨fun h => h.2, fun h => ⟨truthy_of_getProp_str _ _ _ h, h⟩⟩

/-! ## Lemmas on the walk -/

theorem runStack_ran_cons (env : Env) (l : Layer) (ls : List Layer) (x : Exchange) :
    ∃ rest, (runStack env (l :: ls) x).ran = l :: rest := by
  simp only [runStack]
  split
  · exact ⟨[], rfl⟩
  · split
    · exact ⟨[], rfl⟩
    · exact ⟨_, rfl⟩

theorem plainSegment_ne_empty (s : String) (h : plainSegment s = true) : s ≠ "" := by
  intro hs
  subst hs
  simp [plainSegment] at h

theorem dropTrailingSlash_pair (a t : String) (h : t ≠ "") :
    dropTrailingSlash [a, t] = [a, t] := by
  simp [dropTrailingSlash, h]

/-- When the first function of a route calls next(), the second one runs. -/
theorem runStack_ran_two (env : Env) (l1 l2 : Layer) (x : Exchange)
    (h : (runLayer env l1 { x with nextCalls := [] }).nextCalls = [undefined]) :
    ∃ rest, (runStack env [l1, l2] x).ran = l1 :: l2 :: rest := by
  obtain ⟨rest, hrest⟩ := runStack_ran_cons env l2 [] (runLayer env l1 { x with nextCalls := [] })
  refine ⟨rest, ?_⟩
  rw [runStack]
  simp only [h, truthy]
  simp [hrest]

/-- The walk starts by running the first route that takes the request, on the request with
the parameters of that route bound. -/
theorem dispatch_ran_append (env : Env) (routes : List Route) (x : Exchange) (r : Route)
    (h : firstMatch routes x.req.method x.req.path = some r) :
    ∃ rest bs, matchPath r.path x.req.path = some bs ∧
      (dispatch env routes x).ran =
        (runStack env r.stack { x with req := { x.req with params := bs } }).ran ++ rest := by
  induction routes with
  | nil => simp [firstMatch] at h
  | cons r' rs ih =>
    simp only [firstMatch, List.find?_cons] at h
    by_cases hacc : r'.accepts x.req.method x.req.path = true
    · simp only [hacc] at h
      cases h
      simp only [Route.accepts, Bool.and_eq_true, decide_eq_true_eq] at hacc
      obtain ⟨hm, hp⟩ := hacc
      obtain ⟨bs, hbs⟩ := Option.isSome_iff_exists.1 hp
      simp only [dispatch, hm, if_true, hbs]
      split
      · exact ⟨_, bs, rfl, rfl⟩
      · exact ⟨[], bs, rfl, by simp⟩
    · have hacc' : r'.accepts x.req.method x.req.path = false := by
        simpa using hacc
      simp only [hacc'] at h
      have ih' := ih h
      simp only [Route.accepts, Bool.and_eq_false_iff, decide_eq_false_iff_not] at hacc'
      by_cases hm : r'.method = x.req.method
      · have hp : matchPath r'.path x.req.path = none := by
          rcases hacc' with h1 | h1
          · exact absurd hm h1
          · cases hmp : matchPath r'.path x.req.path with
            | none => rfl
            | some bs => simp [hmp] at h1
        simp only [dispatch, hm, if_true, hp]
        exact ih'
      · simp only [dispatch, hm, if_false]
        exact ih'

/-- The walk starts with the first function of the first route that takes the request. -/
theorem dispatch_ran_head (env : Env) (routes : List Route) (x : Exchange) (r : Route)
    (l : Layer) (ls : List Layer)
    (h : firstMatch routes x.req.method x.req.path = some r) (hs : r.stack = l :: ls) :
    (dispatch env routes x).ran.head? = some l := by
  obtain ⟨rest, bs, _, hran⟩ := dispatch_ran_append env routes x r h
  obtain ⟨t, ht⟩ := runStack_ran_cons env l ls { x with req := { x.req with params := bs } }
  rw [hran, hs, ht]
  rfl

/-- A request no route takes walks the whole table without running anything. -/
theorem dispatch_of_no_match (env : Env) (routes : List Route) (x : Exchange)
    (h : firstMatch routes x.req.method x.req.path = none) :
    dispatch env routes x = { exchange := x, ran := [], flow := .fellThrough } := by
  induction routes with
  | nil => rfl
  | cons r' rs ih =>
    simp only [firstMatch, List.find?_cons] at h
    by_cases hacc : r'.accepts x.req.method x.req.path = true
    · simp [hacc] at h
    · have hacc' : r'.accepts x.req.method x.req.path = false := by
        simpa using hacc
      simp only [hacc'] at h
      have ih' := ih h
      simp only [Route.accepts, Bool.and_eq_false_iff, decide_eq_false_iff_not] at hacc'
      by_cases hm : r'.method = x.req.method
      · have hp : matchPath r'.path x.req.path = none := by
          rcases hacc' with h1 | h1
          · exact absurd hm h1
          · cases hmp : matchPath r'.path x.req.path with
            | none => rfl
            | some bs => simp [hmp] at h1
        simp only [dispatch, hm, if_true, hp]
        exact ih'
      · simp only [dispatch, hm, if_false]
        exact ih'

/-- Started with an empty log, requireAdminAuth leaves the log empty, or holding the one
call next(), or holding one call next(err) with a truthy err. -/
theorem requireAdminAuth_nextCalls (authenticate : Request → VerifyOutcome) (x : Exchange)
    (hx : x.nextCalls = []) :
    (requireAdminAuth authenticate x).nextCalls = [] ∨
    (requireAdminAuth authenticate x).nextCalls = [undefined] ∨
    ∃ e, e.truthy = true ∧ (requireAdminAuth authenticate x).nextCalls = [e] := by
  unfold requireAdminAuth
  by_cases herr : (authenticate x.req).err.truthy = true
  · right; right
    exact ⟨_, herr, by simp [herr, Exchange.next, hx]⟩
  · by_cases huser : (authenticate x.req).user.truthy = true
    · by_cases hadmin : (getProp (authenticate x.req).user "admin").truthy = true
      · right; left
        simp [herr, huser, hadmin, Exchange.next, Exchange.setUser, hx]
      · left
        simp [herr, huser, hadmin, Exchange.statusJson, hx]
    · left
      simp [herr, huser, Exchange.statusJson, hx]

/-- Every admin-only route of the table is requireAdminAuth followed by a wrapped handler. -/
theorem adminOnly_stack (r : Route) (hr : r ∈ router) (hadmin : adminOnly r = true) :
    ∃ h, r.stack = [.requireAdminAuth, .catchErrors h] := by
  simp only [router, List.mem_cons, List.mem_singleton, List.not_mem_nil, or_false] at hr
  rcases hr with rfl | rfl | rfl | rfl | rfl | rfl | rfl | rfl | rfl | rfl | rfl | rfl |
    rfl | rfl | rfl
  all_goals first
    | exact ⟨_, rfl⟩
    | exact absurd hadmin (by decide)

/-! ## Claims -/

/-- C1: when verification yields no error and no user, requireAuth answers 401 with body
(error: m), where m is "expired token" exactly when the info has name "TokenExpiredError"
and "invalid token" otherwise (in particular when info is absent, and when strat found no
user for the payload id and so passed false on); next is not called and req.user is not
touched. -/
theorem requireAuth_no_user (authenticate : Request → VerifyOutcome) (x : Exchange) :
    ((authenticate x.req).err.truthy = false → (authenticate x.req).user.truthy = false →
      ∃ m : String,
        requireAuth authenticate x =
          { req := x.req,
            res := { statusCode := 401, body := some (obj [("error", str m)]) },
            nextCalls := x.nextCalls } ∧
        (m = "expired token" ↔
          getProp (authenticate x.req).info "name" = str "TokenExpiredError") ∧
        (getProp (authenticate x.req).info "name" ≠ str "TokenExpiredError" →
          m = "invalid token") ∧
        ((authenticate x.req).info = undefined → m = "invalid token")) ∧
    (∀ (findById : JsVal → Except JsVal JsVal) (data id u : JsVal),
      member data "id" = .ok id → findById id = .ok u → u.truthy = false →
        strat findById data = .ok { err := null, user := bool false, info := undefined } ∧
        (authenticate x.req = { err := null, user := bool false, info := undefined } →
          requireAuth authenticate x =
            { req := x.req,
              res := { statusCode := 401,
                       body := some (obj [("error", str "invalid token")]) },
              nextCalls := x.nextCalls })) := by
  refine ⟨?_, ?_⟩
  · intro herr huser
    by_cases hc : getProp (authenticate x.req).info "name" = str "TokenExpiredError"
    · refine ⟨"expired token", ?_, by simp [hc], fun h => absurd hc h, ?_⟩
      · have hb := (expired_cond_iff _).2 hc
        simp only [requireAuth, herr, huser, Exchange.statusJson]
        simp [hb]
      · intro hi
        rw [hi] at hc
        simp [getProp] at hc
    · refine ⟨"invalid token", ?_, ?_, fun _ => rfl, fun _ => rfl⟩
      · have hb : ((authenticate x.req).info.truthy &&
            strictEqStr (getProp (authenticate x.req).info "name") "TokenExpiredError")
            = false := by
          rw [Bool.eq_false_iff]
          exact fun h => hc ((expired_cond_iff _).1 h)
        simp only [requireAuth, herr, huser, Exchange.statusJson]
        simp [hb]
      · simp [hc]
  · intro findById data id u hid hfind hu
    refine ⟨?_, ?_⟩
    · simp [strat, hid, hfind, hu, bind, Except.bind, pure, Except.pure]
    · intro ho
      simp [requireAuth, ho, truthy, getProp, strictEqStr, Exchange.statusJson]

theorem requireAuth_no_user_witness :
    ∃ m : String,
      requireAuth (fun _ => expiredOutcome) (mkExchange .GET ["users", "me"] undefined) =
        { req := mkRequest .GET ["users", "me"] undefined,
          res := { statusCode := 401, body := some (obj [("error", str m)]) },
          nextCalls := [] } ∧
      (m = "expired token" ↔ getProp expiredOutcome.info "name" = str "TokenExpiredError") ∧
      (getProp expiredOutcome.info "name" ≠ str "TokenExpiredError" → m = "invalid token") ∧
      (expiredOutcome.info = undefined → m = "invalid token") :=
  (requireAuth_no_user (fun _ => expiredOutcome) (mkExchange .GET ["users", "me"] undefined)).1
    rfl rfl

/-- C2: when verification resolves a user whose admin flag is false or missing,
requireAdminAuth answers 401 with body (error: "invalid token"), does not call next and
leaves req.user alone, whereas requireAuth on the same outcome sets req.user (to the user
with the password deleted) and calls next(). -/
theorem requireAdminAuth_rejects_non_admin (authenticate : Request → VerifyOutcome)
    (x : Exchange)
    (herr : (authenticate x.req).err.truthy = false)
    (huser : (authenticate x.req).user.truthy = true)
    (hadmin : (getProp (authenticate x.req).user "admin").truthy = false) :
    requireAdminAuth authenticate x =
      { req := x.req,
        res := { statusCode := 401, body := some (obj [("error", str "invalid token")]) },
        nextCalls := x.nextCalls } ∧
    requireAuth authenticate x =
      { req := { x.req with user := some (deleteProp (authenticate x.req).user "password") },
        res := x.res,
        nextCalls := x.nextCalls ++ [undefined] } := by
  constructor
  · simp [requireAdminAuth, herr, huser, hadmin, Exchange.statusJson]
  · simp [requireAuth, herr, huser, Exchange.setUser, Exchange.next]

/-- C2 at bob, whose stored record has admin false. -/
theorem requireAdminAuth_rejects_non_admin_witness :
    requireAdminAuth (fun _ => bobOutcome) (mkExchange .POST ["products"] undefined) =
      { req := mkRequest .POST ["products"] undefined,
        res := { statusCode := 401, body := some (obj [("error", str "invalid token")]) },
        nextCalls := [] } ∧
    requireAuth (fun _ => bobOutcome) (mkExchange .POST ["products"] undefined) =
      { req := { mkRequest .POST ["products"] undefined with
                 user := some (deleteProp bob "password") },
        res := Response.fresh,
        nextCalls := [] ++ [undefined] } :=
  requireAdminAuth_rejects_non_admin (fun _ => bobOutcome)
    (mkExchange .POST ["products"] undefined) rfl rfl rfl

/-- C7: on every verification outcome in which no user is resolved or the resolved
user has a truthy admin flag, requireAdminAuth and requireAuth give the same exchange: same
calls to next, same response, same req.user. -/
theorem requireAdminAuth_eq_requireAuth (authenticate : Request → VerifyOutcome)
    (x : Exchange)
    (h : (authenticate x.req).user.truthy = false ∨
         (getProp (authenticate x.req).user "admin").truthy = true) :
    requireAdminAuth authenticate x = requireAuth authenticate x := by
  unfold requireAdminAuth requireAuth
  rcases h with h | h
  · simp [h]
  · simp [h]

/-- C7 at alice, whose stored record has admin true. -/
theorem requireAdminAuth_eq_requireAuth_witness :
    requireAdminAuth (fun _ => aliceOutcome) (mkExchange .GET ["users"] undefined) =
      requireAuth (fun _ => aliceOutcome) (mkExchange .GET ["users"] undefined) :=
  requireAdminAuth_eq_requireAuth (fun _ => aliceOutcome)
    (mkExchange .GET ["users"] undefined) (Or.inr rfl)

/-- C8: when the verification outcome carries an error, requireAuth and requireAdminAuth
both call next(err) and nothing else (no response, req.user untouched), whatever user and
info are; and catchErrors(fn) calls next with the rejection reason of fn(req, res, next)
whenever that promise rejects. -/
theorem error_is_forwarded (authenticate : Request → VerifyOutcome) (x : Exchange) :
    ((authenticate x.req).err.truthy = true →
      requireAuth authenticate x =
        { req := x.req, res := x.res,
          nextCalls := x.nextCalls ++ [(authenticate x.req).err] } ∧
      requireAdminAuth authenticate x =
        { req := x.req, res := x.res,
          nextCalls := x.nextCalls ++ [(authenticate x.req).err] }) ∧
    (∀ (fn : Exchange → Settled) (reason : JsVal), (fn x).rejected = some reason →
      catchErrors fn x =
        { req := (fn x).exchange.req, res := (fn x).exchange.res,
          nextCalls := (fn x).exchange.nextCalls ++ [reason] }) := by
  constructor
  · intro herr
    constructor
    · simp [requireAuth, herr, Exchange.next]
    · simp [requireAdminAuth, herr, Exchange.next]
  · intro fn reason hrej
    simp [catchErrors, hrej, Exchange.next]

/-- C8 at a failed verification and at a handler that rejects. -/
theorem error_is_forwarded_witness :
    (requireAuth (fun _ => errorOutcome) (mkExchange .GET ["users", "me"] undefined) =
        { req := mkRequest .GET ["users", "me"] undefined, res := Response.fresh,
          nextCalls := [] ++ [errorOutcome.err] } ∧
      requireAdminAuth (fun _ => errorOutcome) (mkExchange .GET ["users", "me"] undefined) =
        { req := mkRequest .GET ["users", "me"] undefined, res := Response.fresh,
          nextCalls := [] ++ [errorOutcome.err] }) ∧
    catchErrors rejectingHandler (mkExchange .GET ["users", "me"] undefined) =
      { req := mkRequest .GET ["users", "me"] undefined, res := Response.fresh,
        nextCalls := [] ++ [obj [("name", str "Error")]] } :=
  ⟨(error_is_forwarded (fun _ => errorOutcome) (mkExchange .GET ["users", "me"] undefined)).1
      rfl,
   (error_is_forwarded (fun _ => errorOutcome) (mkExchange .GET ["users", "me"] undefined)).2
      rejectingHandler _ rfl⟩

/-- C5 as stated fails: with JWT_TOKEN_LIFETIME=abc the configured lifetime is
Number("abc") = NaN; bob logs in with an email and password that pass validateLogin,
findByEmail resolves him and comparePasswords resolves true, yet jwt.sign throws on the
option expiresIn = NaN and loginRoute rejects with that error: there is no 200 response. -/
theorem loginRoute_sign_throws_counterexample :
    loadConfig sampleNumber (some "s3cret") (some "abc") = some abcConfig ∧
    member bobLogin.req.body "email" = .ok (str "b@x.com") ∧
    member bobLogin.req.body "password" = .ok (str "Secret123") ∧
    acceptLogin (str "b@x.com") (str "Secret123") = [] ∧
    findBobByEmail (str "b@x.com") = .ok bob ∧ bob.truthy = true ∧
    compareWithSecret123 (str "Secret123") (getProp bob "password") = .ok (bool true) ∧
    loginRoute abcConfig acceptLogin findBobByEmail compareWithSecret123 checkedSign
        bobLogin = .error expiresInError ∧
    ¬ ∃ y, loginRoute abcConfig acceptLogin findBobByEmail compareWithSecret123 checkedSign
        bobLogin = .ok y := by
  refine ⟨rfl, rfl, rfl, rfl, rfl, rfl, rfl, rfl, ?_⟩
  rintro ⟨y, hy⟩
  have h : loginRoute abcConfig acceptLogin findBobByEmail compareWithSecret123 checkedSign
      bobLogin = .error expiresInError := rfl
  rw [h] at hy
  cases hy

/-- C5 amended: for a request whose (email, password) pass validateLogin, where findByEmail
resolves a user and comparePasswords resolves a truthy value, sign is called with the payload
(id: user.id), the configured secret and the option expiresIn = configured lifetime; when it
returns a token, loginRoute answers with status 200 and body (user, token, expiresIn) with
that token and expiresIn = configured lifetime; when it throws, loginRoute rejects with what
was thrown and sends nothing. The lifetime is 14400 when no override is configured and
Number(override) when a non-empty override is. -/
theorem loginRoute_success (Number : String → JsVal) (secret : String)
    (lifetimeEnv : Option String) (cfg : Config)
    (hcfg : loadConfig Number (some secret) lifetimeEnv = some cfg)
    (validateLogin : JsVal → JsVal → List JsVal)
    (findByEmail : JsVal → Except JsVal JsVal)
    (comparePasswords : JsVal → JsVal → Except JsVal JsVal)
    (sign : JsVal → String → JsVal → Except JsVal JsVal)
    (x : Exchange) (email password user ok : JsVal)
    (hfresh : x.res.statusCode = 200)
    (hemail : member x.req.body "email" = .ok email)
    (hpassword : member x.req.body "password" = .ok password)
    (hvalid : validateLogin email password = [])
    (hfind : findByEmail email = .ok user) (huser : user.truthy = true)
    (hcmp : comparePasswords password (getProp user "password") = .ok ok)
    (hok : ok.truthy = true) :
    (∀ token : JsVal,
      sign (obj [("id", getProp user "id")]) secret (obj [("expiresIn", cfg.tokenLifetime)])
          = .ok token →
      loginRoute cfg validateLogin findByEmail comparePasswords sign x =
        .ok { req := x.req,
              res := { statusCode := 200,
                       body := some (obj [
                         ("user", deleteProp user "password"),
                         ("token", token),
                         ("expiresIn", cfg.tokenLifetime)]) },
              nextCalls := x.nextCalls }) ∧
    (∀ thrown : JsVal,
      sign (obj [("id", getProp user "id")]) secret (obj [("expiresIn", cfg.tokenLifetime)])
          = .error thrown →
      loginRoute cfg validateLogin findByEmail comparePasswords sign x = .error thrown) ∧
    (lifetimeEnv = none → cfg.tokenLifetime = num 14400) ∧
    (∀ s : String, lifetimeEnv = some s → s ≠ "" → cfg.tokenLifetime = Number s) := by
  have hsecret : cfg.secretOrKey = secret ∧
      (lifetimeEnv = none → cfg.tokenLifetime = num 14400) ∧
      (∀ s : String, lifetimeEnv = some s → s ≠ "" → cfg.tokenLifetime = Number s) := by
    unfold loadConfig at hcfg
    by_cases hs : secret = ""
    · simp [hs] at hcfg
    · simp only [hs, if_false, Option.some.injEq] at hcfg
      subst hcfg
      refine ⟨rfl, ?_, ?_⟩
      · intro hnone
        subst hnone
        rfl
      · intro s hsome hne
        subst hsome
        simp [hne]
  refine ⟨?_, ?_, hsecret.2⟩
  · intro token hsign
    simp [loginRoute, hemail, hpassword, hvalid, hfind, huser, hcmp, hok, hsecret.1, hsign,
      Exchange.json, hfresh, bind, Except.bind, pure, Except.pure]
  · intro thrown hsign
    simp [loginRoute, hemail, hpassword, hvalid, hfind, huser, hcmp, hok, hsecret.1, hsign,
      bind, Except.bind, pure, Except.pure]

/-- C5 amended, at bob logging in with the right password: under the default lifetime with a
sign that returns, and under JWT_TOKEN_LIFETIME=abc with a sign that throws on NaN. -/
theorem loginRoute_success_witness :
    loginRoute sampleConfig acceptLogin findBobByEmail compareWithSecret123 recordingSign
        bobLogin =
      .ok { req := bobLogin.req,
            res := { statusCode := 200,
                     body := some (obj [
                       ("user", deleteProp bob "password"),
                       ("token", recordedToken (obj [("id", num 2)]) "s3cret"
                                   (obj [("expiresIn", num 14400)])),
                       ("expiresIn", sampleConfig.tokenLifetime)]) },
            nextCalls := bobLogin.nextCalls } ∧
    sampleConfig.tokenLifetime = num 14400 ∧
    loginRoute abcConfig acceptLogin findBobByEmail compareWithSecret123 checkedSign
        bobLogin = .error expiresInError ∧
    abcConfig.tokenLifetime = sampleNumber "abc" :=
  ⟨(loginRoute_success sampleNumber "s3cret" none sampleConfig rfl acceptLogin findBobByEmail
      compareWithSecret123 recordingSign bobLogin (str "b@x.com") (str "Secret123") bob
      (bool true) rfl rfl rfl rfl rfl rfl rfl rfl).1 _ rfl,
   (loginRoute_success sampleNumber "s3cret" none sampleConfig rfl acceptLogin findBobByEmail
      compareWithSecret123 recordingSign bobLogin (str "b@x.com") (str "Secret123") bob
      (bool true) rfl rfl rfl rfl rfl rfl rfl rfl).2.2.1 rfl,
   (loginRoute_success sampleNumber "s3cret" (some "abc") abcConfig rfl acceptLogin
      findBobByEmail compareWithSecret123 checkedSign bobLogin (str "b@x.com")
      (str "Secret123") bob (bool true) rfl rfl rfl rfl rfl rfl rfl rfl).2.1 _ rfl,
   (loginRoute_success sampleNumber "s3cret" (some "abc") abcConfig rfl acceptLogin
      findBobByEmail compareWithSecret123 checkedSign bobLogin (str "b@x.com")
      (str "Secret123") bob (bool true) rfl rfl rfl rfl rfl rfl rfl rfl).2.2.2 "abc" rfl
      (by decide)⟩

/-- C4: no user object leaving the auth layer has a password field: the req.user set by
requireAuth and by requireAdminAuth whenever they call next(), the body of the 201 response
of registerRoute, and the user field of the 200 response of loginRoute, whatever record the
store returned. -/
theorem no_password_leaves_auth :
    (∀ (authenticate : Request → VerifyOutcome) (x : Exchange),
      (requireAuth authenticate x).nextCalls = x.nextCalls ++ [undefined] →
        ∃ u, (requireAuth authenticate x).req.user = some u ∧
          hasProp u "password" = false ∧ getProp u "password" = undefined) ∧
    (∀ (authenticate : Request → VerifyOutcome) (x : Exchange),
      (requireAdminAuth authenticate x).nextCalls = x.nextCalls ++ [undefined] →
        ∃ u, (requireAdminAuth authenticate x).req.user = some u ∧
          hasProp u "password" = false ∧ getProp u "password" = undefined) ∧
    (∀ (validateUser : JsVal → Except JsVal (List JsVal))
        (createUser : JsVal → JsVal → JsVal → Except JsVal JsVal) (x y : Exchange),
      registerRoute validateUser createUser x = .ok y → y.res.statusCode = 201 →
        ∃ b, y.res.body = some b ∧
          hasProp b "password" = false ∧ getProp b "password" = undefined) ∧
    (∀ (cfg : Config) (validateLogin : JsVal → JsVal → List JsVal)
        (findByEmail : JsVal → Except JsVal JsVal)
        (comparePasswords : JsVal → JsVal → Except JsVal JsVal)
        (sign : JsVal → String → JsVal → Except JsVal JsVal) (x y : Exchange),
      loginRoute cfg validateLogin findByEmail comparePasswords sign x = .ok y →
        y.res.statusCode = 200 →
        ∃ u token expiresIn,
          y.res.body = some (obj [("user", u), ("token", token), ("expiresIn", expiresIn)]) ∧
          hasProp u "password" = false ∧ getProp u "password" = undefined) := by
  refine ⟨?_, ?_, ?_, ?_⟩
  · intro authenticate x h
    unfold requireAuth at h ⊢
    by_cases herr : (authenticate x.req).err.truthy = true
    · simp only [herr, if_true, Exchange.next] at h
      have := List.append_cancel_left h
      simp only [List.cons.injEq, and_true] at this
      rw [this] at herr
      simp [truthy] at herr
    · by_cases huser : (authenticate x.req).user.truthy = true
      · refine ⟨deleteProp (authenticate x.req).user "password", ?_,
          hasProp_deleteProp _ _, getProp_deleteProp _ _⟩
        simp [herr, huser, Exchange.setUser, Exchange.next]
      · simp [herr, huser, Exchange.statusJson] at h
  · intro authenticate x h
    unfold requireAdminAuth at h ⊢
    by_cases herr : (authenticate x.req).err.truthy = true
    · simp only [herr, if_true, Exchange.next] at h
      have := List.append_cancel_left h
      simp only [List.cons.injEq, and_true] at this
      rw [this] at herr
      simp [truthy] at herr
    · by_cases huser : (authenticate x.req).user.truthy = true
      · by_cases hadmin : (getProp (authenticate x.req).user "admin").truthy = true
        · refine ⟨deleteProp (authenticate x.req).user "password", ?_,
            hasProp_deleteProp _ _, getProp_deleteProp _ _⟩
          simp [herr, huser, hadmin, Exchange.setUser, Exchange.next]
        · simp [herr, huser, hadmin, Exchange.statusJson] at h
      · simp [herr, huser, Exchange.statusJson] at h
  · intro validateUser createUser x y h hstatus
    unfold registerRoute at h
    simp only [bind, Except.bind, pure, Except.pure] at h
    split at h
    · cases h
    · split at h
      · cases h
      · split at h
        · cases h
        · split at h
          · cases h
          · split at h
            · cases h
              simp [Exchange.statusJson] at hstatus
            · split at h
              · cases h
              · split at h
                · cases h
                · rename_i w hw
                  cases h
                  exact ⟨w, rfl, hasProp_deleteMember _ _ _ hw, getProp_deleteMember _ _ _ hw⟩
  · intro cfg validateLogin findByEmail comparePasswords sign x y h hstatus
    unfold loginRoute at h
    simp only [bind, Except.bind, pure, Except.pure] at h
    split at h
    · cases h
    · split at h
      · cases h
      · split at h
        · cases h
          simp [Exchange.statusJson] at hstatus
        · split at h
          · cases h
          · split at h
            · cases h
              simp [Exchange.statusJson] at hstatus
            · split at h
              · cases h
              · split at h
                · split at h
                  · cases h
                  · cases h
                    exact ⟨_, _, _, rfl, hasProp_deleteProp _ _, getProp_deleteProp _ _⟩
                · cases h
                  simp [Exchange.statusJson] at hstatus

/-- C4 at stored records that do carry a password hash: bob through requireAuth, alice
through requireAdminAuth, bob registering, bob logging in. -/
theorem no_password_leaves_auth_witness :
    (hasProp bob "password" = true ∧ hasProp alice "password" = true) ∧
    (∃ u, (requireAuth (fun _ => bobOutcome)
            (mkExchange .GET ["users", "me"] undefined)).req.user = some u ∧
          hasProp u "password" = false ∧ getProp u "password" = undefined) ∧
    (∃ u, (requireAdminAuth (fun _ => aliceOutcome)
            (mkExchange .GET ["users"] undefined)).req.user = some u ∧
          hasProp u "password" = false ∧ getProp u "password" = undefined) ∧
    (∃ b, bobRegistered.res.body = some b ∧
          hasProp b "password" = false ∧ getProp b "password" = undefined) ∧
    (∃ u token expiresIn,
          bobLoggedIn.res.body =
            some (obj [("user", u), ("token", token), ("expiresIn", expiresIn)]) ∧
          hasProp u "password" = false ∧ getProp u "password" = undefined) :=
  ⟨⟨rfl, rfl⟩,
   no_password_leaves_auth.1 (fun _ => bobOutcome)
     (mkExchange .GET ["users", "me"] undefined) rfl,
   no_password_leaves_auth.2.1 (fun _ => aliceOutcome)
     (mkExchange .GET ["users"] undefined) rfl,
   no_password_leaves_auth.2.2.1 acceptUser createBob bobRegister bobRegistered rfl rfl,
   no_password_leaves_auth.2.2.2 sampleConfig acceptLogin findBobByEmail compareWithSecret123
     recordingSign bobLogin bobLoggedIn rfl rfl⟩

/-- C6 as stated fails: loginRoute answers an unknown email with a 401 whose message is
neither "expired token" nor "invalid token" (it is "No such user"). -/
theorem loginRoute_401_wording_counterexample :
    ¬ (∀ (cfg : Config) (validateLogin : JsVal → JsVal → List JsVal)
        (findByEmail : JsVal → Except JsVal JsVal)
        (comparePasswords : JsVal → JsVal → Except JsVal JsVal)
        (sign : JsVal → String → JsVal → Except JsVal JsVal) (x y : Exchange),
      loginRoute cfg validateLogin findByEmail comparePasswords sign x = .ok y →
        y.res.statusCode = 401 →
        y.res.body = some (obj [("error", str "expired token")]) ∨
        y.res.body = some (obj [("error", str "invalid token")])) := by
  intro h
  have h1 : loginRoute sampleConfig acceptLogin findBobByEmail compareWithSecret123
      recordingSign strangerLogin =
      .ok (strangerLogin.statusJson 401 (obj [("error", str "No such user")])) := rfl
  have h2 := h sampleConfig acceptLogin findBobByEmail compareWithSecret123 recordingSign
    strangerLogin _ h1 rfl
  simp [Exchange.statusJson] at h2

/-- C6 amended: requireAuth and requireAdminAuth either leave the response as it was or send
401 with body (error: "expired token") or (error: "invalid token"); loginRoute answers 401
with (error: "No such user") when findByEmail resolves no user, and 401 with
(error: "Invalid password!") when comparePasswords resolves a falsy value. -/
theorem unauthenticated_wording :
    (∀ (authenticate : Request → VerifyOutcome) (x : Exchange),
      (requireAuth authenticate x).res = x.res ∨
      (requireAuth authenticate x).res =
        { statusCode := 401, body := some (obj [("error", str "expired token")]) } ∨
      (requireAuth authenticate x).res =
        { statusCode := 401, body := some (obj [("error", str "invalid token")]) }) ∧
    (∀ (authenticate : Request → VerifyOutcome) (x : Exchange),
      (requireAdminAuth authenticate x).res = x.res ∨
      (requireAdminAuth authenticate x).res =
        { statusCode := 401, body := some (obj [("error", str "expired token")]) } ∨
      (requireAdminAuth authenticate x).res =
        { statusCode := 401, body := some (obj [("error", str "invalid token")]) }) ∧
    (∀ (cfg : Config) (validateLogin : JsVal → JsVal → List JsVal)
        (findByEmail : JsVal → Except JsVal JsVal)
        (comparePasswords : JsVal → JsVal → Except JsVal JsVal)
        (sign : JsVal → String → JsVal → Except JsVal JsVal) (x : Exchange) (email password user : JsVal),
      member x.req.body "email" = .ok email → member x.req.body "password" = .ok password →
      validateLogin email password = [] → findByEmail email = .ok user →
      (user.truthy = false →
        loginRoute cfg validateLogin findByEmail comparePasswords sign x =
          .ok { req := x.req,
                res := { statusCode := 401,
                         body := some (obj [("error", str "No such user")]) },
                nextCalls := x.nextCalls }) ∧
      (∀ ok : JsVal, user.truthy = true →
        comparePasswords password (getProp user "password") = .ok ok → ok.truthy = false →
        loginRoute cfg validateLogin findByEmail comparePasswords sign x =
          .ok { req := x.req,
                res := { statusCode := 401,
                         body := some (obj [("error", str "Invalid password!")]) },
                nextCalls := x.nextCalls })) := by
  refine ⟨?_, ?_, ?_⟩
  · intro authenticate x
    unfold requireAuth
    by_cases herr : (authenticate x.req).err.truthy = true
    · simp [herr, Exchange.next]
    · by_cases huser : (authenticate x.req).user.truthy = true
      · simp [herr, huser, Exchange.next, Exchange.setUser]
      · by_cases hc : ((authenticate x.req).info.truthy &&
            strictEqStr (getProp (authenticate x.req).info "name") "TokenExpiredError") = true
        · right; left
          simp only [herr, huser, Exchange.statusJson]
          simp [hc]
        · right; right
          simp only [herr, huser, Exchange.statusJson]
          simp [hc]
  · intro authenticate x
    unfold requireAdminAuth
    by_cases herr : (authenticate x.req).err.truthy = true
    · simp [herr, Exchange.next]
    · by_cases huser : (authenticate x.req).user.truthy = true
      · by_cases hadmin : (getProp (authenticate x.req).user "admin").truthy = true
        · simp [herr, huser, hadmin, Exchange.next, Exchange.setUser]
        · right; right
          simp [herr, huser, hadmin, Exchange.statusJson]
      · by_cases hc : ((authenticate x.req).info.truthy &&
            strictEqStr (getProp (authenticate x.req).info "name") "TokenExpiredError") = true
        · right; left
          simp only [herr, huser, Exchange.statusJson]
          simp [hc]
        · right; right
          simp only [herr, huser, Exchange.statusJson]
          simp [hc]
  · intro cfg validateLogin findByEmail comparePasswords sign x email password user
      hemail hpassword hvalid hfind
    constructor
    · intro huser
      simp [loginRoute, hemail, hpassword, hvalid, hfind, huser, Exchange.statusJson,
        bind, Except.bind, pure, Except.pure]
    · intro ok huser hcmp hok
      simp [loginRoute, hemail, hpassword, hvalid, hfind, huser, hcmp, hok,
        Exchange.statusJson, bind, Except.bind, pure, Except.pure]

/-- C6 amended, at a login for an unknown email and at bob logging in with a wrong
password. -/
theorem unauthenticated_wording_witness :
    loginRoute sampleConfig acceptLogin findBobByEmail compareWithSecret123 recordingSign
        strangerLogin =
      .ok { req := strangerLogin.req,
            res := { statusCode := 401, body := some (obj [("error", str "No such user")]) },
            nextCalls := strangerLogin.nextCalls } ∧
    loginRoute sampleConfig acceptLogin findBobByEmail compareWithSecret123 recordingSign
        bobBadLogin =
      .ok { req := bobBadLogin.req,
            res := { statusCode := 401,
                     body := some (obj [("error", str "Invalid password!")]) },
            nextCalls := bobBadLogin.nextCalls } :=
  ⟨(unauthenticated_wording.2.2 sampleConfig acceptLogin findBobByEmail compareWithSecret123
      recordingSign strangerLogin (str "nobody@x.com") (str "Secret123") null
      rfl rfl rfl rfl).1 rfl,
   (unauthenticated_wording.2.2 sampleConfig acceptLogin findBobByEmail compareWithSecret123
      recordingSign bobBadLogin (str "b@x.com") (str "guess") bob
      rfl rfl rfl rfl).2 (bool false) rfl rfl rfl⟩

/-- C3 fails on the code: the first route that takes GET /users/me (and PATCH /users/me) is
the one registered for /users/:id, guarded by requireAdminAuth; with a valid token of the
non-admin bob the walk runs requireAdminAuth only and answers 401 (error: "invalid token"),
meRoute never runs; with a valid token of the admin alice the handler run is userRoute. -/
theorem users_me_takes_admin_route :
    firstMatch router .GET ["users", "me"] =
      some { method := .GET, path := [.lit "users", .param "id"],
             stack := [.requireAdminAuth, .catchErrors .userRoute] } ∧
    firstMatch router .PATCH ["users", "me"] =
      some { method := .PATCH, path := [.lit "users", .param "id"],
             stack := [.requireAdminAuth, .catchErrors .updateAdminRoute] } ∧
    (∀ handlers : Handler → Exchange → Settled,
      (dispatch { authenticate := fun _ => bobOutcome, handlers := handlers } router
          (mkExchange .GET ["users", "me"] undefined)).ran = [.requireAdminAuth] ∧
      (dispatch { authenticate := fun _ => bobOutcome, handlers := handlers } router
          (mkExchange .GET ["users", "me"] undefined)).exchange.res =
        { statusCode := 401, body := some (obj [("error", str "invalid token")]) }) ∧
    (∀ handlers : Handler → Exchange → Settled, ∃ rest,
      (dispatch { authenticate := fun _ => aliceOutcome, handlers := handlers } router
          (mkExchange .GET ["users", "me"] undefined)).ran =
        .requireAdminAuth :: .catchErrors .userRoute :: rest) := by
  refine ⟨by decide, by decide, ?_, ?_⟩
  · intro handlers
    exact ⟨rfl, rfl⟩
  · intro handlers
    obtain ⟨rest, bs, hbs, hran⟩ :=
      dispatch_ran_append { authenticate := fun _ => aliceOutcome, handlers := handlers }
        router (mkExchange .GET ["users", "me"] undefined)
        { method := .GET, path := [.lit "users", .param "id"],
          stack := [.requireAdminAuth, .catchErrors .userRoute] } (by decide)
    obtain ⟨rest', hrest'⟩ :=
      runStack_ran_two { authenticate := fun _ => aliceOutcome, handlers := handlers }
        .requireAdminAuth (.catchErrors .userRoute)
        { mkExchange .GET ["users", "me"] undefined with
          req := { (mkExchange .GET ["users", "me"] undefined).req with params := bs } } rfl
    rw [hran, hrest']
    exact ⟨rest' ++ rest, rfl⟩

/-- C9: the routes of the table with method POST, PATCH or DELETE under /products or
/categories, and GET /users, GET /users/:id, PATCH /users/:id (nine routes in all), each
consist of requireAdminAuth immediately followed by the wrapped handler; and when such a
route is run, a wrapped handler runs only if requireAdminAuth called next(). -/
theorem admin_routes_guarded :
    (router.filter adminOnly).map (fun r => (r.method, r.path)) =
      [(.GET, [.lit "users"]), (.GET, [.lit "users", .param "id"]),
       (.PATCH, [.lit "users", .param "id"]), (.POST, [.lit "products"]),
       (.PATCH, [.lit "products", .param "id"]), (.DELETE, [.lit "products", .param "id"]),
       (.POST, [.lit "categories"]), (.PATCH, [.lit "categories", .param "id"]),
       (.DELETE, [.lit "categories", .param "id"])] ∧
    (∀ r ∈ router, adminOnly r = true →
      ∃ h, r.stack = [.requireAdminAuth, .catchErrors h]) ∧
    (∀ (env : Env) (r : Route) (h : Handler) (x : Exchange),
      r ∈ router → adminOnly r = true →
      Layer.catchErrors h ∈ (runStack env r.stack x).ran →
      (requireAdminAuth env.authenticate { x with nextCalls := [] }).nextCalls =
        [undefined]) := by
  refine ⟨by decide, adminOnly_stack, ?_⟩
  intro env r h x hr hadmin hran
  obtain ⟨h', hstack⟩ := adminOnly_stack r hr hadmin
  rw [hstack, runStack] at hran
  simp only [runLayer] at hran
  rcases requireAdminAuth_nextCalls env.authenticate { x with nextCalls := [] } rfl with
    hn | hn | ⟨e, he, hn⟩
  · simp [hn] at hran
  · exact hn
  · simp [hn, he] at hran

/-- C9 at POST /products with a valid token of alice. -/
theorem admin_routes_guarded_witness :
    (requireAdminAuth aliceEnv.authenticate
        { mkExchange .POST ["products"] undefined with nextCalls := [] }).nextCalls =
      [undefined] :=
  admin_routes_guarded.2.2 aliceEnv postProducts .newProductRoute
    (mkExchange .POST ["products"] undefined) (by decide) rfl
    (List.Mem.tail _ (List.Mem.head _))

/-- C10 as stated fails: the table has no GET route for /categories/:id, and no route at
all takes GET /categories/1. -/
theorem get_category_by_id_counterexample :
    firstMatch router .GET ["categories", "1"] = none ∧
    ¬ ∃ r ∈ router, r.method = .GET ∧ r.path = [.lit "categories", .param "id"] := by
  decide

/-- C10 amended: GET /products, GET /products/:id and GET /categories are in the table with
the wrapped handler as their only function, and a GET request on one of these paths starts
by running that handler, whatever the request carries and whatever verification would say;
GET /categories/:id is taken by no route, and the walk runs nothing for it. -/
theorem public_catalogue_routes :
    ({ method := .GET, path := [.lit "products"],
       stack := [.catchErrors .productsRoute] } ∈ router ∧
     { method := .GET, path := [.lit "products", .param "id"],
       stack := [.catchErrors .productRoute] } ∈ router ∧
     { method := .GET, path := [.lit "categories"],
       stack := [.catchErrors .categoriesRoute] } ∈ router) ∧
    (∀ (env : Env) (x : Exchange), x.req.method = .GET →
      (x.req.path = ["products"] →
        (dispatch env router x).ran.head? = some (.catchErrors .productsRoute)) ∧
      (∀ id : String, plainSegment id = true → x.req.path = ["products", id] →
        (dispatch env router x).ran.head? = some (.catchErrors .productRoute)) ∧
      (x.req.path = ["categories"] →
        (dispatch env router x).ran.head? = some (.catchErrors .categoriesRoute)) ∧
      (∀ id : String, plainSegment id = true → x.req.path = ["categories", id] →
        firstMatch router .GET ["categories", id] = none ∧
        dispatch env router x = { exchange := x, ran := [], flow := .fellThrough })) := by
  refine ⟨by decide, ?_⟩
  intro env x hm
  have hup : foldCase "users" ≠ foldCase "products" := by decide
  have huc : foldCase "users" ≠ foldCase "categories" := by decide
  have hpc : foldCase "products" ≠ foldCase "categories" := by decide
  have hcat : ∀ id : String, plainSegment id = true →
      firstMatch router .GET ["categories", id] = none := by
    intro id hid
    have hne := plainSegment_ne_empty id hid
    simp [firstMatch, router, Route.accepts, matchPath, dropTrailingSlash_pair _ _ hne,
      matchSegs, huc, hpc]
  refine ⟨?_, ?_, ?_, ?_⟩
  · intro hp
    refine dispatch_ran_head env router x
      { method := .GET, path := [.lit "products"],
        stack := [.catchErrors .productsRoute] } _ [] ?_ rfl
    rw [hm, hp]
    decide
  · intro id hid hp
    have hne := plainSegment_ne_empty id hid
    refine dispatch_ran_head env router x
      { method := .GET, path := [.lit "products", .param "id"],
        stack := [.catchErrors .productRoute] } _ [] ?_ rfl
    rw [hm, hp]
    simp [firstMatch, router, Route.accepts, matchPath, dropTrailingSlash_pair _ _ hne,
      matchSegs, hup, hne]
  · intro hp
    refine dispatch_ran_head env router x
      { method := .GET, path := [.lit "categories"],
        stack := [.catchErrors .categoriesRoute] } _ [] ?_ rfl
    rw [hm, hp]
    decide
  · intro id hid hp
    refine ⟨hcat id hid, dispatch_of_no_match env router x ?_⟩
    rw [hm, hp]
    exact hcat id hid

/-- C10 amended, at requests that carry no header at all and for which verification
resolves no user. -/
theorem public_catalogue_routes_witness :
    (dispatch anonymousEnv router (mkExchange .GET ["products"] undefined)).ran.head? =
      some (.catchErrors .productsRoute) ∧
    (dispatch anonymousEnv router (mkExchange .GET ["products", "7"] undefined)).ran.head? =
      some (.catchErrors .productRoute) ∧
    (dispatch anonymousEnv router (mkExchange .GET ["categories"] undefined)).ran.head? =
      some (.catchErrors .categoriesRoute) ∧
    (firstMatch router .GET ["categories", "7"] = none ∧
      dispatch anonymousEnv router (mkExchange .GET ["categories", "7"] undefined) =
        { exchange := mkExchange .GET ["categories", "7"] undefined, ran := [],
          flow := .fellThrough }) :=
  ⟨(public_catalogue_routes.2 anonymousEnv (mkExchange .GET ["products"] undefined) rfl).1 rfl,
   (public_catalogue_routes.2 anonymousEnv (mkExchange .GET ["products", "7"] undefined)
      rfl).2.1 "7" (by decide) rfl,
   (public_catalogue_routes.2 anonymousEnv (mkExchange .GET ["categories"] undefined)
      rfl).2.2.1 rfl,
   (public_catalogue_routes.2 anonymousEnv (mkExchange .GET ["categories", "7"] undefined)
      rfl).2.2.2 "7" (by decide) rfl⟩

end Veff
